import Mathlib

/-!
# Verification of the esockets connection-dispatch engine

Shallow embedding of `src/esockets/socket_server.py` (classes `Client` and
`SocketServer`).  Pure control flow is translated to Lean functions; the
interaction with the operating system (socket reads/writes, lock
availability) is made explicit as input traces; the concurrent poll-loop /
worker interaction is modelled as a step relation on a per-connection state.
-/

namespace ESockets

/-- Python runtime values as far as the server code inspects them: the
callbacks `handle_incoming` / `handle_readable` may return anything, and the
code tests the result with `value is True`, an identity test that only the
boolean singleton `True` passes (`1 is True` and `"x" is True` are false). -/
inductive PyVal where
  | bool (b : Bool)
  | int (n : Int)
  | str (s : String)
  | none
deriving DecidableEq, Repr

/-- Python truthiness (`bool(v)`), used to show that the code's `value is
True` test is an identity test, not a truthiness test. -/
def PyVal.truthy : PyVal → Bool
  | .bool b => b
  | .int n => n ≠ 0
  | .str s => s ≠ ""
  | .none => false

/-- Exception classes relevant to the server code. -/
inductive ExnKind where
  | socketError
  | runtimeError
  | valueError
  | keyError
  | other (name : String)
deriving DecidableEq, Repr

/-- A raised Python exception: its class and its description (`str(e)`). -/
structure Exn where
  kind : ExnKind
  msg : String
deriving DecidableEq, Repr

/-- The `except (socket.error, RuntimeError)` clauses in
`_subthread_handle_accepted` and `_subthread_handle_readable` catch exactly
these two classes. -/
def caughtByHandshake : ExnKind → Bool
  | .socketError => true
  | .runtimeError => true
  | _ => false

/-- Result of a handshake worker body, as observable from outside the
worker thread. -/
inductive WorkerOutcome where
  | disconnected (reason : PyVal)
  | registered
  | uncaught (e : Exn)
deriving DecidableEq, Repr

/-- `SocketServer._subthread_handle_readable` (socket_server.py lines
209-224): calls `handle_readable(client)`; a raised `socket.error` or
`RuntimeError` is caught and turned into `disconnect(client, str(e))`; on a
return value, `if value is True and not client.closed` the client is
re-registered, otherwise `disconnect(client, value)`.  `cbResult` is what
the user callback did (returned a value or raised); `closed` is the
client's `closed` flag at the test. -/
def subthreadHandleReadable (cbResult : Except Exn PyVal) (closed : Bool) :
    WorkerOutcome :=
  match cbResult with
  | .error e =>
      if caughtByHandshake e.kind then .disconnected (.str e.msg)
      else .uncaught e
  | .ok v =>
      if v = PyVal.bool true ∧ closed = false then .registered
      else .disconnected v

/-- Result of `_subthread_handle_accepted`: as `WorkerOutcome` but the
affirmative path additionally sets `client.accepted = True` before
registering. -/
inductive AcceptOutcome where
  | disconnected (reason : PyVal)
  | acceptedRegistered
  | uncaught (e : Exn)
deriving DecidableEq, Repr

/-- `SocketServer._subthread_handle_accepted` (socket_server.py lines
192-207): identical structure to the readable handshake, with
`handle_incoming` as the callback and `client.accepted = True` set on the
affirmative path before `self.register(client)`. -/
def subthreadHandleAccepted (cbResult : Except Exn PyVal) (closed : Bool) :
    AcceptOutcome :=
  match cbResult with
  | .error e =>
      if caughtByHandshake e.kind then .disconnected (.str e.msg)
      else .uncaught e
  | .ok v =>
      if v = PyVal.bool true ∧ closed = false then .acceptedRegistered
      else .disconnected v

/-- Result of one `threading.Lock.acquire(timeout=t)` call. -/
inductive AcquireResult where
  | acquired
  | timedOut
  | blocksForever
  | error (e : Exn)
deriving DecidableEq, Repr

/-- `threading.Lock.acquire(timeout=t)` as called by `Client.send`
(socket_server.py line 38).  The environment is `freeAfter`: `some d` means
the lock becomes available after waiting `d` time units, `none` means it
never does.  CPython semantics: a negative timeout other than `-1` raises
`ValueError`; `-1` waits without bound; `t ≥ 0` waits at most `t` (so `0`
is a non-blocking attempt). -/
def lockAcquire (timeout : Int) (freeAfter : Option Nat) : AcquireResult :=
  if timeout < 0 ∧ timeout ≠ -1 then
    .error ⟨.valueError, "timeout value must be a positive number"⟩
  else
    match freeAfter with
    | Option.none => if timeout = -1 then .blocksForever else .timedOut
    | some d =>
        if timeout = -1 then .acquired
        else if (d : Int) ≤ timeout then .acquired else .timedOut

/-- One response of the kernel to a `socket.send` call: it accepts some
number of bytes (at most the length offered) or raises. -/
inductive SendResult where
  | sent (n : Nat)
  | err (e : Exn)
deriving DecidableEq, Repr

/-- Observable outcome of `Client.send`: a returned byte count, a raised
exception, a call still blocked inside the write loop when the supplied
kernel trace ran out (`starved`), or a call that never returns because the
lock acquisition blocks forever (`hangs`). -/
inductive SendOutcome where
  | ok (total : Nat)
  | exn (e : Exn)
  | starved
  | hangs
deriving DecidableEq, Repr

/-- The write loop of `Client.send` (socket_server.py lines 40-44):
`while total_sent < msg_len`, call `socket.send(bytes[total_sent:])`; a
zero-byte result raises `RuntimeError('Socket connection broken on send')`;
otherwise `total_sent += sent`.  Each kernel response is clamped by `min`
to the length offered, since `socket.send` never reports more bytes than it
was given. -/
def sendLoop (msgLen : Nat) (total : Nat) : List SendResult → SendOutcome
  | [] => if msgLen ≤ total then .ok total else .starved
  | r :: rest =>
      if msgLen ≤ total then .ok total
      else
        match r with
        | .err e => .exn e
        | .sent n =>
            let n' := min n (msgLen - total)
            if n' = 0 then .exn ⟨.runtimeError, "Socket connection broken on send"⟩
            else sendLoop msgLen (total + n') rest

/-- `Client.send(bytes, timeout)` (socket_server.py lines 34-48):
`total_sent = 0`; if `send_lock.acquire(timeout=timeout)` succeeds, run the
write loop (the lock is released in a `finally`, which has no further
observable effect here); if the acquire times out the body is skipped and
`total_sent = 0` is returned.  `msgLen = len(bytes)`. -/
def clientSend (msgLen : Nat) (timeout : Int) (freeAfter : Option Nat)
    (trace : List SendResult) : SendOutcome :=
  match lockAcquire timeout freeAfter with
  | .acquired => sendLoop msgLen 0 trace
  | .timedOut => .ok 0
  | .blocksForever => .hangs
  | .error e => .exn e

/-- Observable outcome of `Client.recv`: returned bytes (modelled as a list
of byte values), a raised exception, or a call still blocked in the read
loop when the supplied kernel trace ran out. -/
inductive RecvOutcome where
  | ok (data : List Nat)
  | exn (e : Exn)
  | starved
deriving DecidableEq, Repr

/-- The fixed-size read loop of `Client.recv` (socket_server.py lines
51-60): `while bytes_recd < size`, call
`socket.recv(min(size - bytes_recd, 2048))`; an empty chunk raises
`RuntimeError("Socket connection broken on recv")`; otherwise the chunk is
appended and `bytes_recd` grows by its length.  Each element of `trace` is
the data the kernel has ready for that call; `socket.recv(n)` hands over at
most `n` of it (`List.take`). -/
def recvFixedLoop (size : Nat) (acc : List Nat) : List (List Nat) → RecvOutcome
  | [] => if size ≤ acc.length then .ok acc else .starved
  | avail :: rest =>
      if size ≤ acc.length then .ok acc
      else
        let chunk := avail.take (min (size - acc.length) 2048)
        if chunk = [] then .exn ⟨.runtimeError, "Socket connection broken on recv"⟩
        else recvFixedLoop size (acc ++ chunk) rest

/-- `Client.recv(size, fixed)` (socket_server.py lines 50-66): the fixed
branch runs the chunked loop starting from no accumulated bytes; the
non-fixed branch performs a single `socket.recv(size)` and raises only on
an empty result. -/
def clientRecv (size : Nat) (fixed : Bool) (trace : List (List Nat)) :
    RecvOutcome :=
  if fixed then recvFixedLoop size [] trace
  else
    match trace with
    | [] => .starved
    | avail :: _ =>
        let data := avail.take size
        if data = [] then .exn ⟨.runtimeError, "Socket connection broken on recv"⟩
        else .ok data

/-! ## Server registry, registration and the disconnect protocol

Clients are identified by numeric ids.  The server state carries the
`self.clients` registry (a Python list), the watch set of the
`_recv_selector`, and the set of clients whose socket has been closed by
`Client.close` (which sets `self.closed = True`).  `Client.close_handled`
is initialised to `False` in `Client.__init__` and is never read or written
anywhere else in the source, so it is constantly `false` and carries no
state; it therefore does not appear in the state. -/

structure ServerState where
  clients : List Nat
  registered : List Nat
  closedIds : List Nat
deriving DecidableEq, Repr

/-- Externally observable actions taken by the disconnect protocol and by
`stop`, in program order. -/
inductive Event where
  | unregistered (c : Nat)
  | socketClosed (c : Nat)
  | removedFromRegistry (c : Nat)
  | handleClosed (c : Nat) (reason : String)
  | stopSignalSent (loopIdx : Nat)
  | loopJoined (loopIdx : Nat)
  | serverSocketShutdown
  | serverSocketClosed
deriving DecidableEq, Repr

/-- `SocketServer.register` (socket_server.py lines 257-269): registering an
already-registered client raises `KeyError('Client already registered')`
unless `silent` is set, in which case the state is unchanged. -/
def register (s : ServerState) (c : Nat) (silent : Bool) :
    Except Exn ServerState :=
  if c ∈ s.registered then
    if silent then .ok s
    else .error ⟨.keyError, "Client already registered"⟩
  else .ok { s with registered := c :: s.registered }

/-- `SocketServer.unregister` (socket_server.py lines 271-280): removing a
client that is not in the watch set raises `KeyError` unless `silent`. -/
def unregister (s : ServerState) (c : Nat) (silent : Bool) :
    Except Exn ServerState :=
  if c ∈ s.registered then
    .ok { s with registered := s.registered.erase c }
  else if silent then .ok s
  else .error ⟨.keyError, "Client already registered"⟩

/-- The single-connection branch of `SocketServer.disconnect`
(socket_server.py lines 290-298), run in program order:
`self.unregister(client, silent=True)` (never raises), `client.close()`,
`if client in self.clients: self.clients.remove(client)` (Python
`list.remove` drops the first occurrence), then
`self.handle_closed(client, reason)`.  Returns the new state and the
emitted events. -/
def disconnectOne (s : ServerState) (c : Nat) (reason : String) :
    ServerState × List Event :=
  match unregister s c true with
  | .error _ => (s, [])
  | .ok s1 =>
      let s2 : ServerState := { s1 with closedIds := c :: s1.closedIds }
      let s3 : ServerState :=
        if c ∈ s2.clients then { s2 with clients := s2.clients.erase c } else s2
      (s3,
        [Event.unregistered c, Event.socketClosed c] ++
          (if c ∈ s2.clients then [Event.removedFromRegistry c] else []) ++
          [Event.handleClosed c reason])

/-- The iterable branch of `SocketServer.disconnect` (socket_server.py
lines 284-288): `for i in client: self.disconnect(i, reason, how)`.  When
the argument is `self.clients` itself the code iterates over
`self.clients.copy()`; here the snapshot is the list value passed in. -/
def disconnectMany (s : ServerState) (cs : List Nat) (reason : String) :
    ServerState × List Event :=
  match cs with
  | [] => (s, [])
  | c :: rest =>
      let p1 := disconnectOne s c reason
      let p2 := disconnectMany p1.1 rest reason
      (p2.1, p1.2 ++ p2.2)

/-- `SocketServer.stop` (socket_server.py lines 240-255):
`self.disconnect(self.clients, 'Server shutting down')` (taking the
`.copy()` snapshot, since disconnecting mutates `self.clients`), then
`send_stop_signal` to each loop object, then `stop` (join) on each, then
`self._server_socket.shutdown(...)` and `self._server_socket.close()`. -/
def stop (s : ServerState) : ServerState × List Event :=
  let p := disconnectMany s s.clients "Server shutting down"
  (p.1,
    p.2 ++
      [Event.stopSignalSent 0, Event.stopSignalSent 1,
       Event.loopJoined 0, Event.loopJoined 1,
       Event.serverSocketShutdown, Event.serverSocketClosed])

/-! ## Per-connection concurrency model

The poll loop and the worker threads are modelled as a labelled transition
system on the state of a single connection.  Each step is one of the
atomic actions the code performs on that connection; an interleaving of the
threads is a finite sequence of steps, i.e. a `Relation.ReflTransGen`
chain.  `inflight` means a `_subthread_handle_readable` job for this
connection has been submitted and has not yet finished (a finishing worker
either re-registers the connection or disconnects it, as its last action on
it). -/

structure ConnState where
  accepted : Bool
  registered : Bool
  inflight : Bool
  closed : Bool
deriving DecidableEq, Repr

/-- A freshly accepted connection (`Client.__init__`): not accepted, not in
the `_recv_selector` watch set, no readable worker in flight, not closed. -/
def initConn : ConnState :=
  { accepted := false, registered := false, inflight := false, closed := false }

/-- Atomic actions of the dispatch loops, handshake workers and the
disconnect protocol on one connection, from socket_server.py:
* `acceptOk`/`acceptReject`: `_subthread_handle_accepted` finishing (lines
  198-207); the affirmative branch sets `accepted` and registers, any other
  branch disconnects (unregister + close).
* `pollDispatch`: one hit of `_mainthread_poll_readable` (lines 184-190):
  the ready connection is unregistered and a readable worker is submitted.
* `readableOk`/`readableReject`: `_subthread_handle_readable` finishing
  (lines 216-224): the affirmative branch re-registers, any other branch
  disconnects.
* `extDisconnect`: `disconnect` invoked from anywhere else (explicit API
  call, `stop`, or the server `send` wrapper): silent unregister + close. -/
inductive ConnStep : ConnState → ConnState → Prop where
  | acceptOk (s : ConnState) :
      s.accepted = false → s.closed = false →
      ConnStep s { s with accepted := true, registered := true }
  | acceptReject (s : ConnState) :
      s.accepted = false →
      ConnStep s { s with registered := false, closed := true }
  | pollDispatch (s : ConnState) :
      s.registered = true →
      ConnStep s { s with registered := false, inflight := true }
  | readableOk (s : ConnState) :
      s.inflight = true → s.closed = false →
      ConnStep s { s with inflight := false, registered := true }
  | readableReject (s : ConnState) :
      s.inflight = true →
      ConnStep s { s with inflight := false, registered := false, closed := true }
  | extDisconnect (s : ConnState) :
      ConnStep s { s with registered := false, closed := true }

/-- A connection state reachable from the freshly accepted state by some
interleaving of the loops and workers. -/
def ConnReachable (s : ConnState) : Prop :=
  Relation.ReflTransGen ConnStep initConn s

/-! ## Theorems about the handshake worker bodies (C3, C9, C10) -/

/-- C3 counterexample: a user callback raising `ValueError` (any class other
than `socket.error` and `RuntimeError`) is NOT converted into a disconnect:
both handshake bodies let it escape the worker boundary, so the claim
"every exception raised by a user callback is caught at the handshake
boundary" is false. -/
theorem callback_valueError_escapes_worker :
    subthreadHandleReadable (.error ⟨.valueError, "boom"⟩) false =
      WorkerOutcome.uncaught ⟨.valueError, "boom"⟩ ∧
    subthreadHandleReadable (.error ⟨.valueError, "boom"⟩) false ≠
      WorkerOutcome.disconnected (.str "boom") ∧
    subthreadHandleAccepted (.error ⟨.valueError, "boom"⟩) false =
      AcceptOutcome.uncaught ⟨.valueError, "boom"⟩ := by
  refine ⟨rfl, ?_, rfl⟩
  decide

/-- C3 (amended): exactly the exceptions of class `socket.error` or
`RuntimeError` raised by `handle_incoming` or `handle_readable` are caught
at the handshake boundary and converted into a disconnect of that
connection with the exception's description (`str(e)`) as the reason; an
exception of any other class propagates past the worker boundary. -/
theorem handshake_catches_exactly_socket_and_runtime_errors
    (e : Exn) (closed : Bool) :
    (caughtByHandshake e.kind = true →
      subthreadHandleReadable (.error e) closed =
          WorkerOutcome.disconnected (.str e.msg) ∧
      subthreadHandleAccepted (.error e) closed =
          AcceptOutcome.disconnected (.str e.msg)) ∧
    (caughtByHandshake e.kind = false →
      subthreadHandleReadable (.error e) closed = WorkerOutcome.uncaught e ∧
      subthreadHandleAccepted (.error e) closed = AcceptOutcome.uncaught e) := by
  constructor
  · intro h
    simp [subthreadHandleReadable, subthreadHandleAccepted, h]
  · intro h
    simp [subthreadHandleReadable, subthreadHandleAccepted, h]

/-- C3 witness: a `socket.error` with description "peer reset" raised by the
callback becomes a disconnect with reason "peer reset" in both handshakes. -/
theorem handshake_catches_exactly_socket_and_runtime_errors_witness :
    caughtByHandshake ExnKind.socketError = true ∧
    subthreadHandleReadable (.error ⟨.socketError, "peer reset"⟩) false =
        WorkerOutcome.disconnected (.str "peer reset") ∧
    subthreadHandleAccepted (.error ⟨.socketError, "peer reset"⟩) false =
        AcceptOutcome.disconnected (.str "peer reset") :=
  ⟨rfl,
    (handshake_catches_exactly_socket_and_runtime_errors
      ⟨.socketError, "peer reset"⟩ false).1 rfl⟩

/-- C9: in the accept-validation handshake, if `handle_incoming` returns
the boolean `True` and the client has not been concurrently closed, the
client is marked accepted and registered into the recv selector; any other
return value leads to `disconnect(client, value)` with the returned value
as the reason. -/
theorem accept_handshake_register_or_disconnect (v : PyVal) (closed : Bool) :
    (v = PyVal.bool true → closed = false →
      subthreadHandleAccepted (.ok v) closed = AcceptOutcome.acceptedRegistered) ∧
    (v ≠ PyVal.bool true →
      subthreadHandleAccepted (.ok v) closed = AcceptOutcome.disconnected v) := by
  constructor
  · intro hv hc
    simp [subthreadHandleAccepted, hv, hc]
  · intro hv
    simp [subthreadHandleAccepted, hv]

/-- C9 witness: `True` from an open client registers; the rejection value
"bad handshake" disconnects with that value as the reason. -/
theorem accept_handshake_register_or_disconnect_witness :
    subthreadHandleAccepted (.ok (.bool true)) false =
        AcceptOutcome.acceptedRegistered ∧
    subthreadHandleAccepted (.ok (.str "bad handshake")) false =
        AcceptOutcome.disconnected (.str "bad handshake") :=
  ⟨(accept_handshake_register_or_disconnect (.bool true) false).1 rfl rfl,
    (accept_handshake_register_or_disconnect (.str "bad handshake") false).2
      (by decide)⟩

/-- C10: both handshakes test the callback's return value with `value is
True`, an identity test: registration happens exactly when the value is the
boolean `True` and the `closed` flag is false; every other value `v` —
including Python-truthy non-booleans such as `1` or a non-empty string —
leads to `disconnect(client, v)` with `v` passed verbatim as the reason. -/
theorem handshake_requires_identical_True (v : PyVal) (closed : Bool) :
    (subthreadHandleReadable (.ok v) closed = WorkerOutcome.registered ↔
      v = PyVal.bool true ∧ closed = false) ∧
    (subthreadHandleAccepted (.ok v) closed = AcceptOutcome.acceptedRegistered ↔
      v = PyVal.bool true ∧ closed = false) ∧
    (¬(v = PyVal.bool true ∧ closed = false) →
      subthreadHandleReadable (.ok v) closed = WorkerOutcome.disconnected v ∧
      subthreadHandleAccepted (.ok v) closed = AcceptOutcome.disconnected v) := by
  refine ⟨?_, ?_, ?_⟩
  · unfold subthreadHandleReadable
    split
    · simp_all
    · simp_all
  · unfold subthreadHandleAccepted
    split
    · simp_all
    · simp_all
  · intro h
    constructor
    · simp [subthreadHandleReadable, h]
    · simp [subthreadHandleAccepted, h]

/-- C10 witness: the integer `1` is Python-truthy yet is not `True` by
identity, so it causes a disconnect with the value `1` itself as reason. -/
theorem handshake_requires_identical_True_witness :
    PyVal.truthy (.int 1) = true ∧
    subthreadHandleReadable (.ok (.int 1)) false =
        WorkerOutcome.disconnected (.int 1) ∧
    subthreadHandleAccepted (.ok (.int 1)) false =
        AcceptOutcome.disconnected (.int 1) :=
  ⟨by decide,
    (handshake_requires_identical_True (.int 1) false).2.2 (by decide)⟩

/-! ## The registered-XOR-inflight invariant (C2) -/

/-- Inductive strengthening of the XOR invariant: a connection is only
registered or in-flight after the accept handshake approved it, and never
registered and in-flight at once. -/
def ConnInv (s : ConnState) : Prop :=
  (s.registered = true → s.accepted = true) ∧
  (s.inflight = true → s.accepted = true) ∧
  ¬(s.registered = true ∧ s.inflight = true)

theorem connInv_init : ConnInv initConn := by
  refine ⟨?_, ?_, ?_⟩ <;> simp [initConn]

theorem connInv_step {s s' : ConnState} (hInv : ConnInv s)
    (hStep : ConnStep s s') : ConnInv s' := by
  obtain ⟨hra, hia, hx⟩ := hInv
  cases hStep with
  | acceptOk h1 h2 =>
      refine ⟨?_, ?_, ?_⟩ <;> simp_all
  | acceptReject h1 =>
      refine ⟨?_, ?_, ?_⟩ <;> simp_all
  | pollDispatch h1 =>
      refine ⟨?_, ?_, ?_⟩ <;> simp_all
  | readableOk h1 h2 =>
      refine ⟨?_, ?_, ?_⟩ <;> simp_all
  | readableReject h1 =>
      refine ⟨?_, ?_, ?_⟩ <;> simp_all
  | extDisconnect =>
      refine ⟨?_, ?_, ?_⟩ <;> simp_all

theorem connInv_reachable {s : ConnState} (h : ConnReachable s) : ConnInv s := by
  induction h with
  | refl => exact connInv_init
  | tail _ hstep ih => exact connInv_step ih hstep

/-- C2: in every state reachable by any interleaving of the poll loop, the
handshake workers and the disconnect protocol, a connection is never both
registered in the recv selector and in-flight in a readable worker: the
poll loop unregisters before submitting and only that worker re-registers,
so one readiness event is never dispatched to two workers. -/
theorem registered_xor_inflight (s : ConnState) (h : ConnReachable s) :
    ¬(s.registered = true ∧ s.inflight = true) :=
  (connInv_reachable h).2.2

/-- C2 witness: the state just after the poll loop dispatched a worker for
an accepted connection (reached by `acceptOk` then `pollDispatch`) is not
registered while in-flight. -/
theorem registered_xor_inflight_witness :
    ¬((ConnState.mk true false true false).registered = true ∧
      (ConnState.mk true false true false).inflight = true) :=
  registered_xor_inflight (ConnState.mk true false true false)
    (Relation.ReflTransGen.tail
      (Relation.ReflTransGen.tail Relation.ReflTransGen.refl
        (ConnStep.acceptOk initConn rfl rfl))
      (ConnStep.pollDispatch
        { initConn with accepted := true, registered := true } rfl))

/-! ## Theorems about the lock and the transfer primitives (C4, C5, C6) -/

/-- C4 counterexample: a timeout of `0` is non-positive but does not block
indefinitely: with the lock becoming free after 1 time unit,
`acquire(timeout=0)` times out while `acquire(timeout=-1)` acquires; and a
negative timeout other than `-1` raises `ValueError` instead of blocking. -/
theorem nonpositive_timeout_does_not_block_indefinitely :
    lockAcquire 0 (some 1) = AcquireResult.timedOut ∧
    lockAcquire 0 (some 1) ≠ AcquireResult.acquired ∧
    lockAcquire (-1) (some 1) = AcquireResult.acquired ∧
    lockAcquire (-2) (some 1) =
      AcquireResult.error ⟨.valueError, "timeout value must be a positive number"⟩ := by
  refine ⟨by decide, by decide, by decide, by decide⟩

/-- C4 (amended): only `timeout = -1` blocks indefinitely on the write
lock (acquiring whenever the lock ever becomes free, never timing out);
`timeout = 0` is a non-blocking attempt that succeeds only if the lock is
free immediately; a negative timeout other than `-1` raises `ValueError`;
and `Client.send` returns 0 whenever the lock could not be acquired within
the given timeout. -/
theorem only_timeout_minus_one_blocks_indefinitely :
    (∀ d : Nat, lockAcquire (-1) (some d) = AcquireResult.acquired) ∧
    lockAcquire (-1) Option.none = AcquireResult.blocksForever ∧
    (∀ d : Nat, 0 < d → lockAcquire 0 (some d) = AcquireResult.timedOut) ∧
    lockAcquire 0 (some 0) = AcquireResult.acquired ∧
    (∀ (t : Int) (fa : Option Nat), t < -1 →
      lockAcquire t fa =
        AcquireResult.error ⟨.valueError, "timeout value must be a positive number"⟩) ∧
    (∀ (msgLen : Nat) (t : Int) (fa : Option Nat) (trace : List SendResult),
      lockAcquire t fa = AcquireResult.timedOut →
      clientSend msgLen t fa trace = SendOutcome.ok 0) := by
  refine ⟨?_, by decide, ?_, by decide, ?_, ?_⟩
  · intro d
    simp [lockAcquire]
  · intro d hd
    simp [lockAcquire]
    omega
  · intro t fa ht
    have h1 : t < 0 ∧ t ≠ -1 := by omega
    simp [lockAcquire, h1]
  · intro msgLen t fa trace h
    unfold clientSend
    rw [h]

/-- C4 amended-claim witness at concrete inputs. -/
theorem only_timeout_minus_one_blocks_indefinitely_witness :
    lockAcquire (-1) (some 5) = AcquireResult.acquired ∧
    lockAcquire 0 (some 2) = AcquireResult.timedOut ∧
    lockAcquire (-3) Option.none =
      AcquireResult.error ⟨.valueError, "timeout value must be a positive number"⟩ ∧
    clientSend 7 5 Option.none [] = SendOutcome.ok 0 :=
  ⟨only_timeout_minus_one_blocks_indefinitely.1 5,
    only_timeout_minus_one_blocks_indefinitely.2.2.1 2 (by decide),
    only_timeout_minus_one_blocks_indefinitely.2.2.2.2.1 (-3) Option.none
      (by decide),
    only_timeout_minus_one_blocks_indefinitely.2.2.2.2.2 7 5 Option.none []
      (by decide)⟩

theorem sendLoop_ok_eq (trace : List SendResult) :
    ∀ (msgLen total n : Nat), total ≤ msgLen →
      sendLoop msgLen total trace = SendOutcome.ok n → n = msgLen := by
  induction trace with
  | nil =>
      intro msgLen total n hle h
      unfold sendLoop at h
      split at h
      · cases h; omega
      · cases h
  | cons r rest ih =>
      intro msgLen total n hle h
      unfold sendLoop at h
      split at h
      · cases h; omega
      · rename_i hlt
        cases r with
        | err e => cases h
        | sent m =>
            dsimp only at h
            split at h
            · cases h
            · exact ih msgLen (total + min m (msgLen - total)) n (by omega) h

/-- C5: `Client.send` on a payload of `msgLen` bytes either returns the
full `msgLen` (all bytes delivered) or returns 0 (the write lock was not
acquired in time); it never returns a strictly positive partial count.
Moreover a zero-byte result from the underlying `socket.send` raises the
connection-broken `RuntimeError` instead of returning a partial count. -/
theorem send_all_or_nothing :
    (∀ (msgLen : Nat) (timeout : Int) (freeAfter : Option Nat)
        (trace : List SendResult) (n : Nat),
        clientSend msgLen timeout freeAfter trace = SendOutcome.ok n →
        n = 0 ∨ n = msgLen) ∧
    (∀ (msgLen total : Nat) (rest : List SendResult), total < msgLen →
        sendLoop msgLen total (SendResult.sent 0 :: rest) =
          SendOutcome.exn ⟨.runtimeError, "Socket connection broken on send"⟩) := by
  constructor
  · intro msgLen timeout freeAfter trace n h
    unfold clientSend at h
    cases hacq : lockAcquire timeout freeAfter <;> rw [hacq] at h
    · exact Or.inr (sendLoop_ok_eq trace msgLen 0 n (Nat.zero_le _) h)
    · cases h
      exact Or.inl rfl
    · cases h
    · cases h
  · intro msgLen total rest hlt
    unfold sendLoop
    have h1 : ¬msgLen ≤ total := by omega
    simp [h1]

/-- C5 witness: a 3-byte payload fully delivered returns 3; a zero-byte
kernel write with bytes still pending raises the connection-broken error. -/
theorem send_all_or_nothing_witness :
    ((3 : Nat) = 0 ∨ (3 : Nat) = 3) ∧
    sendLoop 2 0 [SendResult.sent 0] =
      SendOutcome.exn ⟨.runtimeError, "Socket connection broken on send"⟩ :=
  ⟨send_all_or_nothing.1 3 (-1) (some 0) [SendResult.sent 3] 3 (by decide),
    send_all_or_nothing.2 2 0 [] (by decide)⟩

theorem recvFixedLoop_ok_length (trace : List (List Nat)) :
    ∀ (size : Nat) (acc data : List Nat), acc.length ≤ size →
      recvFixedLoop size acc trace = RecvOutcome.ok data →
      data.length = size := by
  induction trace with
  | nil =>
      intro size acc data hle h
      unfold recvFixedLoop at h
      split at h
      · cases h; omega
      · cases h
  | cons avail rest ih =>
      intro size acc data hle h
      unfold recvFixedLoop at h
      split at h
      · cases h; omega
      · rename_i hlt
        dsimp only at h
        split at h
        · cases h
        · rename_i hne
          have hc : (avail.take (min (size - acc.length) 2048)).length ≤
              size - acc.length := by
            have := List.length_take (min (size - acc.length) 2048) avail
            omega
          exact ih size (acc ++ avail.take (min (size - acc.length) 2048)) data
            (by simp; omega) h

/-- C6: `Client.recv(size, fixed=True)` accumulates chunked reads until
exactly `size` bytes are collected: whenever it returns, it returns exactly
`size` bytes, never fewer; and a zero-length read while bytes are still
missing raises the connection-broken `RuntimeError`. -/
theorem recv_fixed_exact_size :
    (∀ (size : Nat) (trace : List (List Nat)) (data : List Nat),
        clientRecv size true trace = RecvOutcome.ok data →
        data.length = size) ∧
    (∀ (size : Nat) (acc : List Nat) (rest : List (List Nat)),
        acc.length < size →
        recvFixedLoop size acc ([] :: rest) =
          RecvOutcome.exn ⟨.runtimeError, "Socket connection broken on recv"⟩) := by
  constructor
  · intro size trace data h
    have h' : recvFixedLoop size [] trace = RecvOutcome.ok data := by
      simpa [clientRecv] using h
    exact recvFixedLoop_ok_length trace size [] data (by simp) h'
  · intro size acc rest hlt
    unfold recvFixedLoop
    have h1 : ¬size ≤ acc.length := by omega
    simp [h1]

/-- C6 witness: a fixed read of 5 bytes served by chunks of 3 and 4
available bytes returns exactly 5 bytes; an empty read with 2 bytes still
missing raises the connection-broken error. -/
theorem recv_fixed_exact_size_witness :
    ([1, 2, 3, 4, 5] : List Nat).length = 5 ∧
    recvFixedLoop 3 [9] [[]] =
      RecvOutcome.exn ⟨.runtimeError, "Socket connection broken on recv"⟩ :=
  ⟨recv_fixed_exact_size.1 5 [[1, 2, 3], [4, 5, 6, 7]] [1, 2, 3, 4, 5]
      (by decide),
    recv_fixed_exact_size.2 3 [9] [] (by decide)⟩

/-! ## Theorems about the disconnect protocol and `stop` (C1, C7, C8) -/

theorem disconnectOne_eq (s : ServerState) (c : Nat) (reason : String) :
    disconnectOne s c reason =
      ({ clients := s.clients.erase c,
         registered := s.registered.erase c,
         closedIds := c :: s.closedIds },
        [Event.unregistered c, Event.socketClosed c] ++
          (if c ∈ s.clients then [Event.removedFromRegistry c] else []) ++
          [Event.handleClosed c reason]) := by
  unfold disconnectOne unregister
  by_cases hr : c ∈ s.registered
  · by_cases hc : c ∈ s.clients
    · simp [hr, hc]
    · simp [hr, hc, List.erase_of_not_mem hc]
  · by_cases hc : c ∈ s.clients
    · simp [hr, hc, List.erase_of_not_mem hr]
    · simp [hr, hc, List.erase_of_not_mem hr, List.erase_of_not_mem hc]

/-- C8: the single-connection branch of `disconnect` performs, in order: a
silent unregister that does not raise when the connection is not in the
watch set, the socket close, removal from the registry when present (no
error when absent), and exactly one `handle_closed(client, reason)`
invocation, as the final action. -/
theorem disconnect_single_protocol (s : ServerState) (c : Nat) (reason : String) :
    (c ∉ s.registered → unregister s c true = Except.ok s) ∧
    (disconnectOne s c reason).2 =
      [Event.unregistered c, Event.socketClosed c] ++
        (if c ∈ s.clients then [Event.removedFromRegistry c] else []) ++
        [Event.handleClosed c reason] ∧
    (s.registered.Nodup → c ∉ (disconnectOne s c reason).1.registered) ∧
    c ∈ (disconnectOne s c reason).1.closedIds ∧
    (s.clients.Nodup → c ∉ (disconnectOne s c reason).1.clients) ∧
    (disconnectOne s c reason).2.count (Event.handleClosed c reason) = 1 ∧
    (disconnectOne s c reason).2.getLast? = some (Event.handleClosed c reason) := by
  refine ⟨?_, ?_, ?_, ?_, ?_, ?_, ?_⟩
  · intro h
    simp [unregister, h]
  · rw [disconnectOne_eq]
  · intro hnd
    rw [disconnectOne_eq]
    exact hnd.not_mem_erase
  · rw [disconnectOne_eq]
    exact List.mem_cons_self c _
  · intro hnd
    rw [disconnectOne_eq]
    exact hnd.not_mem_erase
  · rw [disconnectOne_eq]
    by_cases hc : c ∈ s.clients <;> simp [hc, List.count_append, List.count_cons]
  · rw [disconnectOne_eq]
    exact List.getLast?_concat _

/-- C8 witness at a concrete server state holding the single client 7,
whose socket is not registered in the recv selector. -/
theorem disconnect_single_protocol_witness :
    unregister (ServerState.mk [7] [] []) 7 true =
      Except.ok (ServerState.mk [7] [] []) ∧
    7 ∉ (disconnectOne (ServerState.mk [7] [] []) 7 "bye").1.clients ∧
    7 ∉ (disconnectOne (ServerState.mk [7] [] []) 7 "bye").1.registered ∧
    (disconnectOne (ServerState.mk [7] [] []) 7 "bye").2.count
        (Event.handleClosed 7 "bye") = 1 :=
  ⟨(disconnect_single_protocol (ServerState.mk [7] [] []) 7 "bye").1 (by decide),
    (disconnect_single_protocol (ServerState.mk [7] [] []) 7 "bye").2.2.2.2.1
      (by decide),
    (disconnect_single_protocol (ServerState.mk [7] [] []) 7 "bye").2.2.1
      (by decide),
    (disconnect_single_protocol (ServerState.mk [7] [] []) 7 "bye").2.2.2.2.2.1⟩

theorem mem_disconnectMany_events (reason : String) :
    ∀ (cs : List Nat) (s : ServerState) (c : Nat), c ∈ cs →
      Event.handleClosed c reason ∈ (disconnectMany s cs reason).2 := by
  intro cs
  induction cs with
  | nil =>
      intro s c h
      cases h
  | cons a rest ih =>
      intro s c h
      unfold disconnectMany
      dsimp only
      rw [List.mem_append]
      rcases List.mem_cons.mp h with h1 | h2
      · left
        subst h1
        rw [disconnectOne_eq]
        simp
      · right
        exact ih _ c h2

/-- C7: `stop` first disconnects every client in the registry snapshot with
reason "Server shutting down", then signals and joins both loops, and only
then shuts down and closes the listening socket: the trace is the
disconnect events followed by the fixed shutdown tail, every registered
client's `handle_closed` notification lies in the disconnect prefix, and
the very last event is the close of the listening socket. -/
theorem stop_notifies_all_before_close (s : ServerState) :
    (stop s).2 =
      (disconnectMany s s.clients "Server shutting down").2 ++
        [Event.stopSignalSent 0, Event.stopSignalSent 1,
         Event.loopJoined 0, Event.loopJoined 1,
         Event.serverSocketShutdown, Event.serverSocketClosed] ∧
    (∀ c ∈ s.clients,
      Event.handleClosed c "Server shutting down" ∈
        (disconnectMany s s.clients "Server shutting down").2) ∧
    (stop s).2.getLast? = some Event.serverSocketClosed := by
  refine ⟨rfl, ?_, ?_⟩
  · intro c hc
    exact mem_disconnectMany_events "Server shutting down" s.clients s c hc
  · show ((disconnectMany s s.clients "Server shutting down").2 ++
      [Event.stopSignalSent 0, Event.stopSignalSent 1,
       Event.loopJoined 0, Event.loopJoined 1,
       Event.serverSocketShutdown, Event.serverSocketClosed]).getLast? =
      some Event.serverSocketClosed
    rw [show [Event.stopSignalSent 0, Event.stopSignalSent 1,
        Event.loopJoined 0, Event.loopJoined 1,
        Event.serverSocketShutdown, Event.serverSocketClosed] =
      [Event.stopSignalSent 0, Event.stopSignalSent 1,
        Event.loopJoined 0, Event.loopJoined 1,
        Event.serverSocketShutdown] ++ [Event.serverSocketClosed] from rfl]
    rw [← List.append_assoc]
    exact List.getLast?_concat _

/-- C7 witness: with three live connections 1, 2, 3, every one of them is
notified with "Server shutting down" in the disconnect prefix, and the
listening socket close is the final event of `stop`. -/
theorem stop_notifies_all_before_close_witness :
    Event.handleClosed 1 "Server shutting down" ∈
      (disconnectMany (ServerState.mk [1, 2, 3] [1, 2, 3] [])
        (ServerState.mk [1, 2, 3] [1, 2, 3] []).clients "Server shutting down").2 ∧
    Event.handleClosed 2 "Server shutting down" ∈
      (disconnectMany (ServerState.mk [1, 2, 3] [1, 2, 3] [])
        (ServerState.mk [1, 2, 3] [1, 2, 3] []).clients "Server shutting down").2 ∧
    Event.handleClosed 3 "Server shutting down" ∈
      (disconnectMany (ServerState.mk [1, 2, 3] [1, 2, 3] [])
        (ServerState.mk [1, 2, 3] [1, 2, 3] []).clients "Server shutting down").2 ∧
    (stop (ServerState.mk [1, 2, 3] [1, 2, 3] [])).2.getLast? =
      some Event.serverSocketClosed :=
  ⟨(stop_notifies_all_before_close (ServerState.mk [1, 2, 3] [1, 2, 3] [])).2.1
      1 (by decide),
    (stop_notifies_all_before_close (ServerState.mk [1, 2, 3] [1, 2, 3] [])).2.1
      2 (by decide),
    (stop_notifies_all_before_close (ServerState.mk [1, 2, 3] [1, 2, 3] [])).2.1
      3 (by decide),
    (stop_notifies_all_before_close (ServerState.mk [1, 2, 3] [1, 2, 3] [])).2.2⟩

/-- C1: calling `disconnect` twice on the same connection invokes
`handle_closed` twice, not once: the single-connection branch calls
`self.handle_closed(client, reason)` unconditionally, and the
`close_handled` flag that `Client.__init__` initialises is never consulted
or set anywhere, so nothing deduplicates the notification. -/
theorem handle_closed_fires_twice_on_double_disconnect :
    ((disconnectOne (ServerState.mk [7] [7] []) 7 "gone").2 ++
        (disconnectOne (disconnectOne (ServerState.mk [7] [7] []) 7 "gone").1
          7 "gone").2).count
      (Event.handleClosed 7 "gone") = 2 := by decide

end ESockets
